import Mathlib

set_option maxRecDepth 8192

/-!
Shallow embedding of `src/backend-api/main.py` (KeyCare-Gemini3 backend, FastAPI
service around a Gemini call), together with theorems settling the frozen claims
about it.

Conventions of the embedding:

* Python strings are Lean `String`s (lists of Unicode scalar values).  The
  source file on disk is double-encoded (UTF-8 text that went through a
  cp1252 round trip), so the string constants below reproduce, codepoint for
  codepoint, exactly what the Python interpreter sees when it loads the file -
  including the mojibake in the French/Arabic literals.  Non-ASCII codepoints
  are written with `\uXXXX` escapes.
* `str.lower()` is modelled by `pyLowerStr`, faithful on Basic Latin and on the
  Latin-1/cp1252 repertoire (the only non-ASCII characters occurring in the
  constants of the program); it is the identity elsewhere.
* `str.strip()` is modelled by `pyStrip`, dropping the ASCII whitespace
  characters and U+00A0 from both ends (the whitespace actually reachable
  here).
* A value held in a parsed-JSON mapping is a `PyVal`; a mapping key that may be
  absent is an `Option PyVal`.  `dict.get(k, d)` is `Option.getD`.  Calling
  `.strip()` on a non-string raises `AttributeError` in Python; this is
  modelled by `asStr` returning `Except.error`, and functions that can raise
  return `Except String _`.
* The network is modelled by a stream (`List GeminiNet`) of outcomes of the
  HTTP POSTs issued by the code; each call consumes one element.  A 200
  response carries the end result of the body extraction chain
  (`candidates[0].content.parts[0].text` fed to `parse_gemini_json`), which is
  `none` when anything in that chain is missing or unparseable; JSON parsing
  itself is done by the `json`/`re` libraries and is not re-modelled.
-/

/-- A Python value as it may appear in a field of a parsed-JSON mapping
(string, number, boolean or `None`).  Enough structure to express
"wrong-typed" fields. -/
inductive PyVal where
  | vstr (s : String)
  | vint (n : Int)
  | vbool (b : Bool)
  | vnone
  deriving DecidableEq, Repr

/-- Python `str.lower()` restricted to the character repertoire reachable in
this program (ASCII plus the Latin-1/cp1252 range of the mojibake constants);
identity on all other codepoints. -/
def pyLowerChar (c : Char) : Char :=
  if 'A' ≤ c ∧ c ≤ 'Z' then Char.ofNat (c.toNat + 32)
  else if 0xC0 ≤ c.toNat ∧ c.toNat ≤ 0xDE ∧ c.toNat ≠ 0xD7 then Char.ofNat (c.toNat + 32)
  else if c.toNat = 0x0160 then Char.ofNat 0x0161
  else if c.toNat = 0x0152 then Char.ofNat 0x0153
  else if c.toNat = 0x0178 then Char.ofNat 0x00FF
  else if c.toNat = 0x017D then Char.ofNat 0x017E
  else c

/-- Python `text.lower()`. -/
def pyLowerStr (s : String) : String :=
  String.mk (s.toList.map pyLowerChar)

/-- Whitespace stripped by Python `str.strip()` (ASCII whitespace and the
no-break space U+00A0; the wider Unicode space classes do not occur here). -/
def pyWhitespace (c : Char) : Bool :=
  c == ' ' || c == '\t' || c == '\n' || c == '\r' ||
    c.toNat == 0x0B || c.toNat == 0x0C || c.toNat == 0xA0

/-- Python `s.strip()`. -/
def pyStrip (s : String) : String :=
  String.mk (((s.toList.dropWhile pyWhitespace).reverse.dropWhile pyWhitespace).reverse)

/-- Python truthiness of a `PyVal` (`if not risk: ...`). -/
def pyTruthy : PyVal → Bool
  | .vstr s => s != ""
  | .vint n => n != 0
  | .vbool b => b
  | .vnone => false

/-- Python `str(v)`. -/
def pyStr : PyVal → String
  | .vstr s => s
  | .vint n => toString n
  | .vbool b => if b then "True" else "False"
  | .vnone => "None"

/-- Calling a `str` method (`.strip()`, `.lower()`) on a value: succeeds only
on actual strings, any other type raises `AttributeError`. -/
def asStr : PyVal → Except String String
  | .vstr s => .ok s
  | _ => .error "AttributeError"

/-- Python substring containment `needle in haystack` on already-listed
strings. -/
def pyInSub (needle haystack : List Char) : Bool :=
  decide (needle <:+: haystack)

/-- A word character for the purposes of the word tokenization
(`re.findall` with the pattern \b\w+\b):
ASCII alphanumeric, underscore, or any non-ASCII codepoint.  (This
over-approximates the Unicode `\w` class of Python on non-ASCII punctuation; the
equivalence theorem for `contains_profanity` below shows the tokenization pass
never changes the result of that function, so the over-approximation affects no
behaviour proved here.) -/
def isWordChar (c : Char) : Bool :=
  c.isAlphanum || c == '_' || c.toNat ≥ 0x80

/-- Splits a character list into its maximal runs of word characters
(`cur` is the reversed run currently being read). -/
def splitWords : List Char → List Char → List (List Char)
  | [], cur => if cur.isEmpty then [] else [cur.reverse]
  | c :: rest, cur =>
    if isWordChar c then splitWords rest (c :: cur)
    else if cur.isEmpty then splitWords rest []
    else cur.reverse :: splitWords rest []

/-- The token list produced by `re.findall` with pattern \b\w+\b on `text_lower`. -/
def findWords (cs : List Char) : List (List Char) :=
  splitWords cs []

/-- Embeds `PROFANITY_EN` from `main.py` line 39. -/
def PROFANITY_EN : List String := ["ass", "bastard", "bitch", "cock", "crap", "cunt", "damn", "dick", "fag", "fuck", "nigger", "pussy", "retard", "shit", "slut", "whore"]

/-- Embeds `INSULTS_EN` from `main.py` line 40. -/
def INSULTS_EN : List String := ["disgusting", "dumb", "garbage", "idiot", "loser", "moron", "pathetic", "stupid", "trash", "ugly", "worthless"]

/-- Embeds `PROFANITY_FR` from `main.py` line 41 (mojibake preserved). -/
def PROFANITY_FR : List String := ["bordel", "con", "connard", "connasse", "conne", "encul\u00c3\u00a9", "foutre", "merde", "nique", "putain", "salaud", "salope"]

/-- Embeds `INSULTS_FR` from `main.py` line 42 (mojibake preserved). -/
def INSULTS_FR : List String := ["abruti", "cr\u00c3\u00a9tin", "d\u00c3\u00a9bile", "idiot", "imb\u00c3\u00a9cile", "nul", "nulle", "stupide"]

/-- Embeds `PROFANITY_AR` from `main.py` line 43 (mojibake preserved). -/
def PROFANITY_AR : List String := ["\u00d8\u00ae\u00d8\u00b1\u00d8\u00a7", "\u00d8\u00b2\u00d8\u00a8", "\u00d8\u00b4\u00d8\u00b1\u00d9\u2026\u00d9\u02c6\u00d8\u00b7", "\u00d8\u00b7\u00d9\u0160\u00d8\u00b2", "\u00d8\u00b9\u00d8\u00a7\u00d9\u2021\u00d8\u00b1\u00d8\u00a9", "\u00d9\u0192\u00d8\u00b3", "\u00d9\u201a\u00d8\u00ad\u00d8\u00a8\u00d8\u00a9", "\u00d9\u2020\u00d9\u0160\u00d9\u0192", "\u00d9\u2026\u00d9\u2020\u00d9\u0160\u00d9\u02c6\u00d9\u0192"]

/-- Embeds `INSULTS_AR` from `main.py` line 44 (mojibake preserved). -/
def INSULTS_AR : List String := ["\u00d8\u00a3\u00d8\u00ad\u00d9\u2026\u00d9\u201a", "\u00d8\u00aa\u00d8\u00a7\u00d9\u00d9\u2021", "\u00d8\u00ad\u00d9\u0160\u00d9\u02c6\u00d8\u00a7\u00d9\u2020", "\u00d8\u00ad\u00d9\u2026\u00d8\u00a7\u00d8\u00b1", "\u00d8\u00ba\u00d8\u00a8\u00d9\u0160", "\u00d9\u0192\u00d9\u201e\u00d8\u00a8", "\u00d9\u02c6\u00d8\u00b3\u00d8\u00ae"]

/-- Embeds `PROFANITY_DARIJA` from `main.py` line 45. -/
def PROFANITY_DARIJA : List String := ["7mar", "9a7ba", "hmar", "kahba", "lmok", "mok", "nikomok", "sir t9awed", "tboun", "zeb", "zebi"]

/-- Embeds `ALL_PROFANITY = PROFANITY_EN | INSULTS_EN | ...` (`main.py` line 47).
Python builds a set union; only membership in it is ever used, so the
concatenated list (duplicates included) is an equivalent model. -/
def ALL_PROFANITY : List String :=
  PROFANITY_EN ++ INSULTS_EN ++ PROFANITY_FR ++ INSULTS_FR ++
    PROFANITY_AR ++ INSULTS_AR ++ PROFANITY_DARIJA

/-- Embeds `contains_profanity` (`main.py` lines 115-126): a word-boundary
tokenization pass (the set of word tokens intersected with `ALL_PROFANITY`)
followed by a substring pass over the same blocklist. -/
def contains_profanity (text : String) : Bool :=
  let text_lower := (pyLowerStr text).toList
  let words := findWords text_lower
  if ALL_PROFANITY.any (fun w => words.contains w.toList) then true
  else ALL_PROFANITY.any (fun w => pyInSub w.toList text_lower)

/-- Embeds `normalize_risk_level` (`main.py` lines 129-136). -/
def normalize_risk_level (risk : PyVal) : String :=
  if !pyTruthy risk then "harmful"
  else
    let risk_clean := pyLowerStr (pyStrip (pyStr risk))
    if risk_clean == "safe" || risk_clean == "harmful" || risk_clean == "dangerous" then risk_clean
    else "harmful"

/-- The `darija_markers` list inside `detect_language` (`main.py` line 477). -/
def darija_markers : List String := ["hna", "dyal", "wach", "kifach", "3", "7", "9"]

/-- The literal of French accent characters tested by `detect_language`
(`main.py` line 483).  In the file as shipped it is cp1252 mojibake: its
characters are U+00C3 alternating with U+00A9, U+00A8, U+00AA, U+00AB, U+00A0,
U+00A2, U+00A4, U+00B9, U+00BB, U+00BC, U+00B4, U+00B6, U+00AE, U+00AF,
U+00A7 - it does not contain any actual accented letter such as U+00E9. -/
def frenchAccentChars : String := "\u00c3\u00a9\u00c3\u00a8\u00c3\u00aa\u00c3\u00ab\u00c3\u00a0\u00c3\u00a2\u00c3\u00a4\u00c3\u00b9\u00c3\u00bb\u00c3\u00bc\u00c3\u00b4\u00c3\u00b6\u00c3\u00ae\u00c3\u00af\u00c3\u00a7"

/-- Embeds `detect_language` (`main.py` lines 469-486). -/
def detect_language (text : String) (lang_hint : String) : String :=
  if lang_hint ≠ "auto" then lang_hint
  else if text.toList.any (fun c => 1536 < c.toNat && c.toNat < 1791) then
    if darija_markers.any (fun m => pyInSub m.toList (pyLowerStr text).toList) then "darija"
    else "ar"
  else if (pyLowerStr text).toList.any (fun c => frenchAccentChars.toList.contains c) then "fr"
  else "en"

/-- Entry `rewrites["en"]["calm"]` of `get_generic_rewrite`. -/
def rw_en_calm : String := "I\u0027d like to express my feelings about this calmly."

/-- Entry `rewrites["en"]["friendly"]`. -/
def rw_en_friendly : String := "Hey, I wanted to share my thoughts on this."

/-- Entry `rewrites["en"]["professional"]`. -/
def rw_en_professional : String := "I would like to address this matter respectfully."

/-- Entry `rewrites["fr"]["calm"]`. -/
def rw_fr_calm : String := "J\u0027aimerais exprimer mes sentiments calmement."

/-- Entry `rewrites["fr"]["friendly"]` (mojibake preserved). -/
def rw_fr_friendly : String := "Salut, je voulais partager mon avis l\u00c3\u00a0-dessus."

/-- Entry `rewrites["fr"]["professional"]`. -/
def rw_fr_professional : String := "Je souhaiterais aborder ce sujet avec respect."

/-- Entry `rewrites["ar"]["calm"]` (mojibake preserved). -/
def rw_ar_calm : String := "\u00d8\u00a3\u00d9\u02c6\u00d8\u00af \u00d8\u00a3\u00d9\u2020 \u00d8\u00a3\u00d8\u00b9\u00d8\u00a8\u00d8\u00b1 \u00d8\u00b9\u00d9\u2020 \u00d9\u2026\u00d8\u00b4\u00d8\u00a7\u00d8\u00b9\u00d8\u00b1\u00d9\u0160 \u00d8\u00a8\u00d9\u2021\u00d8\u00af\u00d9\u02c6\u00d8\u00a1."

/-- Entry `rewrites["ar"]["friendly"]` (mojibake preserved). -/
def rw_ar_friendly : String := "\u00d9\u2026\u00d8\u00b1\u00d8\u00ad\u00d8\u00a8\u00d8\u00a7\u00d9\u2039\u00d8\u0152 \u00d8\u00a3\u00d8\u00b1\u00d8\u00af\u00d8\u00aa \u00d9\u2026\u00d8\u00b4\u00d8\u00a7\u00d8\u00b1\u00d9\u0192\u00d8\u00a9 \u00d8\u00b1\u00d8\u00a3\u00d9\u0160\u00d9\u0160 \u00d9\u00d9\u0160 \u00d9\u2021\u00d8\u00b0\u00d8\u00a7."

/-- Entry `rewrites["ar"]["professional"]` (mojibake preserved). -/
def rw_ar_professional : String := "\u00d8\u00a3\u00d9\u02c6\u00d8\u00af \u00d9\u2026\u00d8\u00b9\u00d8\u00a7\u00d9\u201e\u00d8\u00ac\u00d8\u00a9 \u00d9\u2021\u00d8\u00b0\u00d8\u00a7 \u00d8\u00a7\u00d9\u201e\u00d9\u2026\u00d9\u02c6\u00d8\u00b6\u00d9\u02c6\u00d8\u00b9 \u00d8\u00a8\u00d8\u00a7\u00d8\u00ad\u00d8\u00aa\u00d8\u00b1\u00d8\u00a7\u00d9\u2026."

/-- Entry `rewrites["darija"]["calm"]` (mojibake preserved). -/
def rw_darija_calm : String := "\u00d8\u00a8\u00d8\u00ba\u00d9\u0160\u00d8\u00aa \u00d9\u2020\u00d8\u00b9\u00d8\u00a8\u00d8\u00b1 \u00d8\u00b9\u00d9\u201e\u00d9\u2030 \u00d8\u00b1\u00d8\u00a3\u00d9\u0160\u00d9\u0160 \u00d8\u00a8\u00d8\u00a7\u00d9\u201e\u00d9\u2021\u00d8\u00af\u00d9\u02c6\u00d8\u00a1."

/-- Entry `rewrites["darija"]["friendly"]` (mojibake preserved). -/
def rw_darija_friendly : String := "\u00d8\u00a3\u00d9\u2021\u00d9\u201e\u00d8\u00a7\u00d8\u0152 \u00d8\u00a8\u00d8\u00ba\u00d9\u0160\u00d8\u00aa \u00d9\u2020\u00d9\u201a\u00d8\u00b3\u00d9\u2026 \u00d9\u2026\u00d8\u00b9\u00d8\u00a7\u00d9\u0192 \u00d8\u00b4\u00d9\u2020\u00d9\u02c6 \u00d9\u0192\u00d9\u2020\u00d9\u00d9\u0192\u00d8\u00b1."

/-- Entry `rewrites["darija"]["professional"]` (mojibake preserved). -/
def rw_darija_professional : String := "\u00d8\u00a8\u00d8\u00ba\u00d9\u0160\u00d8\u00aa \u00d9\u2020\u00d8\u00aa\u00d9\u0192\u00d9\u201e\u00d9\u2026 \u00d8\u00b9\u00d9\u201e\u00d9\u2030 \u00d9\u2021\u00d8\u00a7\u00d8\u00af \u00d8\u00a7\u00d9\u201e\u00d9\u2026\u00d9\u02c6\u00d8\u00b6\u00d9\u02c6\u00d8\u00b9 \u00d8\u00a8\u00d8\u00a7\u00d9\u201e\u00d8\u00a7\u00d8\u00ad\u00d8\u00aa\u00d8\u00b1\u00d8\u00a7\u00d9\u2026."

/-- Access `rewrites[lang_key][tone_key]` of `get_generic_rewrite`
(`main.py` lines 180-204): the if-chain realizes lookup in the nested dict.
The final `else` arms are only reached for the keys `"en"` / `"calm"`, to
which `get_generic_rewrite` routes every unknown key. -/
def rewriteEntry (lang tone : String) : String :=
  if lang == "fr" then
    if tone == "friendly" then rw_fr_friendly
    else if tone == "professional" then rw_fr_professional
    else rw_fr_calm
  else if lang == "ar" then
    if tone == "friendly" then rw_ar_friendly
    else if tone == "professional" then rw_ar_professional
    else rw_ar_calm
  else if lang == "darija" then
    if tone == "friendly" then rw_darija_friendly
    else if tone == "professional" then rw_darija_professional
    else rw_darija_calm
  else
    if tone == "friendly" then rw_en_friendly
    else if tone == "professional" then rw_en_professional
    else rw_en_calm

/-- Embeds `get_generic_rewrite` (`main.py` lines 178-204): `lang_key = lang if lang
in rewrites else "en"`, `tone_key = tone if tone in rewrites[lang_key] else
"calm"` (every inner dict has the same three tone keys), then the table
entry. -/
def get_generic_rewrite (tone lang : String) : String :=
  let lang_key := if lang == "en" || lang == "fr" || lang == "ar" || lang == "darija" then lang else "en"
  let tone_key := if tone == "calm" || tone == "friendly" || tone == "professional" then tone else "calm"
  rewriteEntry lang_key tone_key

/-- An untrusted candidate mapping (the `RawCandidate` of the spec): the four keys
of the Gemini JSON payload, each possibly absent and possibly holding a value
of the wrong type. -/
structure RawCandidate where
  risk_level : Option PyVal
  why : Option PyVal
  rewrite : Option PyVal
  language : Option PyVal
  deriving DecidableEq, Repr

/-- The fully-populated result dict produced by `validate_and_fix_response`
(the `MediationResult` of the spec). -/
structure MedDict where
  risk_level : String
  why : String
  rewrite : String
  language : String
  deriving DecidableEq, Repr

/-- Embeds `validate_and_fix_response` (`main.py` lines 139-175).  The nested
matches reproduce the sequential evaluation order of Python: the first `.strip()` call on
a non-string value raises (`Except.error`). -/
def validate_and_fix_response (result : RawCandidate) (original_text tone lang : String) :
    Except String MedDict :=
  let risk_level := normalize_risk_level (result.risk_level.getD .vnone)
  match asStr (result.why.getD (.vstr "")) with
  | .error e => .error e
  | .ok why_raw =>
    let why0 := pyStrip why_raw
    let why :=
      if why0 == "" then
        if risk_level == "safe" then "Message appears respectful."
        else if risk_level == "harmful" then "Message contains language that could hurt someone."
        else "Message contains threatening or dangerous content."
      else why0
    match asStr (result.rewrite.getD (.vstr "")) with
    | .error e => .error e
    | .ok rewrite_raw =>
      let rewrite0 := pyStrip rewrite_raw
      let rewrite := if rewrite0 == "" then get_generic_rewrite tone lang else rewrite0
      match asStr (result.language.getD (.vstr "en")) with
      | .error e => .error e
      | .ok language_raw =>
        let language0 := pyLowerStr (pyStrip language_raw)
        let language :=
          if language0 == "en" || language0 == "fr" || language0 == "ar" || language0 == "darija" then
            language0
          else detect_language original_text "auto"
        .ok ⟨risk_level, why, rewrite, language⟩

/-- Embeds `harmful_patterns` of `fallback_mediation` (`main.py` lines 424-429,
mojibake preserved). -/
def harmful_patterns : List (String × List String) := [("en", ["idiot", "stupid", "hate", "ugly", "dumb", "shut up", "loser"]), ("fr", ["idiot", "stupide", "d\u00c3\u00a9teste", "nul", "tais-toi", "con"]), ("ar", ["\u00d8\u00ba\u00d8\u00a8\u00d9\u0160", "\u00d8\u00a3\u00d8\u00ad\u00d9\u2026\u00d9\u201a", "\u00d8\u00a3\u00d9\u0192\u00d8\u00b1\u00d9\u2021", "\u00d8\u00a7\u00d8\u00ae\u00d8\u00b1\u00d8\u00b3"]), ("darija", ["hmar", "7mar", "zebi", "m3a9"])]

/-- Embeds `dangerous_patterns` of `fallback_mediation` (`main.py` lines 431-436,
mojibake preserved). -/
def dangerous_patterns : List (String × List String) := [("en", ["kill", "die", "threat", "hurt", "attack", "destroy"]), ("fr", ["tuer", "mort", "menace", "blesser", "attaquer"]), ("ar", ["\u00d9\u201a\u00d8\u00aa\u00d9\u201e", "\u00d9\u2026\u00d9\u02c6\u00d8\u00aa", "\u00d8\u00aa\u00d9\u2021\u00d8\u00af\u00d9\u0160\u00d8\u00af"]), ("darija", ["n9tel", "mout"])]

/-- The `for patterns in table.values(): if any(word in text_lower ...)` scan
of `fallback_mediation`. -/
def patternHit (table : List (String × List String)) (text_lower : List Char) : Bool :=
  table.any (fun kv => kv.2.any (fun w => pyInSub w.toList text_lower))

/-- Embeds `fallback_mediation` (`main.py` lines 419-466).  `tone` is accepted but
unused, as in the source. -/
def fallback_mediation (text tone lang_hint : String) : RawCandidate :=
  let _ := tone
  let text_lower := (pyLowerStr text).toList
  if patternHit dangerous_patterns text_lower then
    ⟨some (.vstr "dangerous"),
     some (.vstr "Message contains potentially threatening language."),
     some (.vstr "I\u0027m feeling very frustrated and need to express my concerns respectfully."),
     some (.vstr (detect_language text lang_hint))⟩
  else if patternHit harmful_patterns text_lower then
    ⟨some (.vstr "harmful"),
     some (.vstr "Message contains language that could hurt someone."),
     some (.vstr "I\u0027d like to express my feelings about this situation."),
     some (.vstr (detect_language text lang_hint))⟩
  else
    ⟨some (.vstr "safe"),
     some (.vstr "Message appears respectful and constructive."),
     some (.vstr text),
     some (.vstr (detect_language text lang_hint))⟩

/-- Outcome of one HTTP POST to the Gemini endpoint, as observed by the code:
a response with its status, or a timeout, or some other transport exception.
For a 200 response, `parsed` is the end result of the body extraction chain
(`candidates[0].content.parts[0].text` fed to `parse_gemini_json`); it is
`none` when candidates/parts are missing or the payload is unparseable. -/
inductive GeminiNet where
  | response (status : Nat) (parsed : Option RawCandidate)
  | timeout
  | exn
  deriving DecidableEq, Repr

/-- Embeds `_call_gemini_once` (`main.py` lines 262-331): issues exactly one HTTP
POST (consumes one element of the outcome stream).  Any non-200 status,
timeout or exception yields `none`; there is no retry of any kind in the
source.  An empty stream is treated as a transport exception. -/
def callGeminiOnce (nets : List GeminiNet) : Option RawCandidate × List GeminiNet :=
  match nets with
  | [] => (none, [])
  | .response status parsed :: rest => (if status ≠ 200 then none else parsed, rest)
  | .timeout :: rest => (none, rest)
  | .exn :: rest => (none, rest)

/-- The literal fallback dict at the end of `_call_gemini_strict_retry`
(`main.py` lines 381-386). -/
def strictRetryFallback (tone detected_lang : String) : RawCandidate :=
  ⟨some (.vstr "harmful"),
   some (.vstr "Contains inappropriate language."),
   some (.vstr (get_generic_rewrite tone detected_lang)),
   some (.vstr detected_lang)⟩

/-- Embeds `_call_gemini_strict_retry` (`main.py` lines 334-386): one HTTP POST; a
200 response whose payload parses is returned as-is, every other outcome
falls back to the generic dict.  `text` and `lang_hint` only shape the prompt
and are unused here, as the output of the call is modelled directly. -/
def callGeminiStrictRetry (text tone lang_hint detected_lang : String) (nets : List GeminiNet) :
    RawCandidate × List GeminiNet :=
  let _ := text
  let _ := lang_hint
  match nets with
  | .response 200 (some r) :: rest => (r, rest)
  | _ :: rest => (strictRetryFallback tone detected_lang, rest)
  | [] => (strictRetryFallback tone detected_lang, [])

/-- Embeds `call_gemini_mediation` (`main.py` lines 210-259): the mediation
orchestrator.  `apiKeyPresent` models `bool(GEMINI_API_KEY)`. -/
def call_gemini_mediation (apiKeyPresent : Bool) (text tone lang_hint : String)
    (nets : List GeminiNet) : Except String MedDict :=
  if !apiKeyPresent then
    validate_and_fix_response (fallback_mediation text tone lang_hint) text tone lang_hint
  else
    let once := callGeminiOnce nets
    let result0 := match once.1 with
      | none => fallback_mediation text tone lang_hint
      | some r => r
    match validate_and_fix_response result0 text tone lang_hint with
    | .error e => .error e
    | .ok res1 =>
      let step2 : Except String MedDict :=
        if contains_profanity res1.rewrite then
          let retry := callGeminiStrictRetry text tone lang_hint res1.language once.2
          match validate_and_fix_response retry.1 text tone lang_hint with
          | .error e => .error e
          | .ok res2 =>
            if contains_profanity res2.rewrite then
              .ok { res2 with rewrite := get_generic_rewrite tone res2.language,
                              risk_level := "harmful" }
            else .ok res2
        else .ok res1
      match step2 with
      | .error e => .error e
      | .ok res3 =>
        if res3.risk_level == "safe" && contains_profanity text then
          .ok { res3 with risk_level := "harmful",
                          why := "Message contains inappropriate language." }
        else .ok res3

/-- The `tone` field of a schema-valid `MediationRequest`
(`Literal["calm", "friendly", "professional"]`, `main.py` line 75). -/
inductive Tone where
  | calm
  | friendly
  | professional
  deriving DecidableEq, Repr

/-- String value of a `Tone`. -/
def Tone.toStr : Tone → String
  | .calm => "calm"
  | .friendly => "friendly"
  | .professional => "professional"

/-- The `lang_hint` field of a schema-valid `MediationRequest`
(`Literal["auto", "en", "fr", "ar", "darija"]`, `main.py` line 79). -/
inductive LangHint where
  | auto
  | en
  | fr
  | ar
  | darija
  deriving DecidableEq, Repr

/-- String value of a `LangHint`. -/
def LangHint.toStr : LangHint → String
  | .auto => "auto"
  | .en => "en"
  | .fr => "fr"
  | .ar => "ar"
  | .darija => "darija"

/-- A schema-valid `MediationRequest` (`main.py` lines 72-82): the endpoint
layer has already enforced the enum fields. -/
structure MediationRequest where
  text : String
  tone : Tone
  lang_hint : LangHint
  deriving DecidableEq, Repr

/-- Embeds `mediate_message` (`main.py` lines 581-614): the `/mediate` endpoint
body.  Any exception escaping the orchestration is caught and replaced by the
fixed harmful-classified response of the `except` branch. -/
def mediate_message (apiKeyPresent : Bool) (req : MediationRequest) (nets : List GeminiNet) :
    MedDict :=
  match call_gemini_mediation apiKeyPresent req.text req.tone.toStr req.lang_hint.toStr nets with
  | .ok r => r
  | .error _ =>
    ⟨"harmful", "Unable to process message.",
     "I\u0027d like to express my thoughts respectfully.", "en"⟩

/-- The three allowed `risk_level` values. -/
def riskTags : List String := ["safe", "harmful", "dangerous"]

/-- The four supported language tags. -/
def langTags : List String := ["en", "fr", "ar", "darija"]

/-- Well-formedness of a result returned to a caller: enum-valid
`risk_level` and `language`, non-empty `why` and `rewrite`. -/
def wellFormedB (r : MedDict) : Bool :=
  riskTags.contains r.risk_level && r.why != "" && r.rewrite != "" && langTags.contains r.language

/-- Pure substring containment against the blocklist, in the words of the
spec for the Lexical Guard refinement claim: some entry of `ALL_PROFANITY` is
a substring of the lowercased text. -/
def containsBlockedSubstringSpec (text : String) : Bool :=
  ALL_PROFANITY.any (fun w => pyInSub w.toList (pyLowerStr text).toList)

/-- A mapping field that is either absent or holds a string. -/
def isStrField : Option PyVal → Bool
  | none => true
  | some (.vstr _) => true
  | some _ => false

/-! ### Supporting lemmas -/

/-- Any output of `normalize_risk_level` is one of the three allowed risk
levels. -/
theorem normalize_risk_level_mem (v : PyVal) : normalize_risk_level v ∈ riskTags := by
  unfold normalize_risk_level
  split
  · decide
  · dsimp only
    split
    · next h =>
      simp only [Bool.or_eq_true, beq_iff_eq] at h
      rcases h with (h | h) | h <;> rw [h] <;> decide
    · decide

/-- The function `get_generic_rewrite` never returns the empty string (every entry of the
template table is non-empty). -/
theorem get_generic_rewrite_ne_empty (tone lang : String) : get_generic_rewrite tone lang ≠ "" := by
  unfold get_generic_rewrite rewriteEntry
  dsimp only
  repeat' split
  all_goals decide

/-- The function `detect_language` with hint `"auto"` returns one of the four supported
tags. -/
theorem detect_language_auto_mem (t : String) : detect_language t "auto" ∈ langTags := by
  unfold detect_language
  split
  · next h => exact absurd rfl h
  · repeat' split
    all_goals decide

/-- Unfolding of the well-formedness predicate. -/
theorem wellFormedB_iff (r : MedDict) :
    wellFormedB r = true ↔
      r.risk_level ∈ riskTags ∧ r.why ≠ "" ∧ r.rewrite ≠ "" ∧ r.language ∈ langTags := by
  simp [wellFormedB, List.contains, and_assoc]

/-- Whenever `validate_and_fix_response` returns a result (does not raise),
that result is fully valid: enum-valid `risk_level` and `language`, non-empty
`why` and `rewrite`. -/
theorem validate_and_fix_response_wellFormed
    (raw : RawCandidate) (t tone lang : String) (r : MedDict)
    (h : validate_and_fix_response raw t tone lang = .ok r) :
    wellFormedB r = true := by
  unfold validate_and_fix_response at h
  split at h
  · exact absurd h (by simp)
  · split at h
    · exact absurd h (by simp)
    · split at h
      · exact absurd h (by simp)
      · simp only [Except.ok.injEq] at h
        subst h
        rw [wellFormedB_iff]
        refine ⟨normalize_risk_level_mem _, ?_, ?_, ?_⟩ <;> dsimp only
        · split
          · split
            · decide
            · split <;> decide
          · next hw => simpa using hw
        · split
          · exact get_generic_rewrite_ne_empty _ _
          · next hw => simpa using hw
        · split
          · next hl =>
            simp only [Bool.or_eq_true, beq_iff_eq] at hl
            rcases hl with ((hl | hl) | hl) | hl <;> rw [hl] <;> decide
          · exact detect_language_auto_mem _

/-- Every token produced by `splitWords` is a contiguous infix of the scanned
text (prefixed by the partial run `cur` being read). -/
theorem splitWords_infix (cs : List Char) :
    ∀ (cur w : List Char), w ∈ splitWords cs cur → w <:+: (cur.reverse ++ cs) := by
  induction cs with
  | nil =>
    intro cur w h
    unfold splitWords at h
    split at h
    · simp at h
    · simp only [List.mem_singleton] at h
      exact ⟨[], [], by simp [h]⟩
  | cons c rest ih =>
    intro cur w h
    unfold splitWords at h
    split at h
    · have := ih (c :: cur) w h
      simpa [List.reverse_cons, List.append_assoc] using this
    · have hsuf : rest <:+: cur.reverse ++ c :: rest := ⟨cur.reverse ++ [c], [], by simp⟩
      split at h
      · have hrest := ih [] w h
        simp only [List.reverse_nil, List.nil_append] at hrest
        exact hrest.trans hsuf
      · rcases List.mem_cons.mp h with hw | hw
        · exact ⟨[], c :: rest, by simp [hw]⟩
        · have hrest := ih [] w hw
          simp only [List.reverse_nil, List.nil_append] at hrest
          exact hrest.trans hsuf

/-- The tokenization pass of `contains_profanity` can only fire when the
substring pass also fires: the function is extensionally pure substring
containment. -/
theorem contains_profanity_eq_spec (t : String) :
    contains_profanity t = containsBlockedSubstringSpec t := by
  unfold contains_profanity containsBlockedSubstringSpec
  dsimp only
  by_cases hA : ALL_PROFANITY.any (fun w => (findWords (pyLowerStr t).toList).contains w.toList) = true
  · rw [if_pos hA]
    obtain ⟨w, hw, hcw⟩ := List.any_eq_true.mp hA
    have hmem : w.toList ∈ findWords (pyLowerStr t).toList := by
      simpa [List.contains] using hcw
    have hinf : w.toList <:+: (pyLowerStr t).toList := by
      simpa using splitWords_infix (pyLowerStr t).toList [] w.toList hmem
    have hsub : pyInSub w.toList (pyLowerStr t).toList = true := by
      unfold pyInSub
      exact decide_eq_true hinf
    exact (List.any_eq_true.mpr ⟨w, hw, hsub⟩).symm
  · rw [if_neg hA]

/-- The risk override of `call_gemini_mediation` (lines 251-255) preserves
well-formedness. -/
theorem wf_override (res : MedDict) (hwf : wellFormedB res = true) :
    wellFormedB ⟨"harmful", "Message contains inappropriate language.", res.rewrite, res.language⟩ = true := by
  rw [wellFormedB_iff] at hwf ⊢
  dsimp only
  exact ⟨by decide, by decide, hwf.2.2.1, hwf.2.2.2⟩

/-- The forced-generic-rewrite override of `call_gemini_mediation`
(lines 246-249) preserves well-formedness. -/
theorem wf_forced (res : MedDict) (tone : String) (hwf : wellFormedB res = true) :
    wellFormedB ⟨"harmful", res.why, get_generic_rewrite tone res.language, res.language⟩ = true := by
  rw [wellFormedB_iff] at hwf ⊢
  dsimp only
  exact ⟨by decide, hwf.2.1, get_generic_rewrite_ne_empty _ _, hwf.2.2.2⟩

/-- Whenever the orchestrator returns a result (rather than raising), the
result is well-formed. -/
theorem call_gemini_mediation_ok_wellFormed
    (k : Bool) (text tone lang : String) (nets : List GeminiNet) (r : MedDict)
    (h : call_gemini_mediation k text tone lang nets = .ok r) :
    wellFormedB r = true := by
  unfold call_gemini_mediation at h
  split at h
  · exact validate_and_fix_response_wellFormed _ _ _ _ _ h
  · dsimp only at h
    split at h
    · exact absurd h (by simp)
    · next res1 hval1 =>
      have hwf1 := validate_and_fix_response_wellFormed _ _ _ _ _ hval1
      split at h
      · exact absurd h (by simp)
      · next res3 heq =>
        have hwf3 : wellFormedB res3 = true := by
          split at heq
          · split at heq
            · exact absurd heq (by simp)
            · next res2 hval2 =>
              have hwf2 := validate_and_fix_response_wellFormed _ _ _ _ _ hval2
              split at heq
              · simp only [Except.ok.injEq] at heq
                rw [← heq]
                exact wf_forced res2 tone hwf2
              · simp only [Except.ok.injEq] at heq
                rw [← heq]
                exact hwf2
          · simp only [Except.ok.injEq] at heq
            rw [← heq]
            exact hwf1
        split at h
        · simp only [Except.ok.injEq] at h
          rw [← h]
          exact wf_override res3 hwf3
        · simp only [Except.ok.injEq] at h
          rw [← h]
          exact hwf3

/-- The function `detect_language` returns the hint unchanged whenever it is not
`"auto"`. -/
theorem detect_language_hint (t hintS : String) (h : hintS ≠ "auto") :
    detect_language t hintS = hintS := by
  unfold detect_language
  rw [if_pos h]

/-- With no credential, the orchestrator is exactly the normalized heuristic
fallback and never touches the network stream. -/
theorem call_gemini_mediation_no_key (text tone lang : String) (nets : List GeminiNet) :
    call_gemini_mediation false text tone lang nets =
      validate_and_fix_response (fallback_mediation text tone lang) text tone lang := rfl

/-- Normalizing the heuristic fallback never raises; its risk level is the
pattern-table classification of the input text, and its rewrite is the fixed
sentence of the matching branch - in the safe branch the stripped original
text, replaced by the generic template when the text strips to empty. -/
theorem validate_fallback_ok (text tone lang : String) :
    ∃ r, validate_and_fix_response (fallback_mediation text tone lang) text tone lang = .ok r ∧
      r.risk_level =
        (if patternHit dangerous_patterns (pyLowerStr text).toList then "dangerous"
         else if patternHit harmful_patterns (pyLowerStr text).toList then "harmful"
         else "safe") ∧
      r.rewrite =
        (if patternHit dangerous_patterns (pyLowerStr text).toList then
          "I\u0027m feeling very frustrated and need to express my concerns respectfully."
         else if patternHit harmful_patterns (pyLowerStr text).toList then
          "I\u0027d like to express my feelings about this situation."
         else if pyStrip text == "" then get_generic_rewrite tone lang
         else pyStrip text) := by
  unfold fallback_mediation
  dsimp only
  split
  · refine ⟨_, rfl, ?_, ?_⟩ <;> dsimp only
    · decide
    · rw [if_neg (by decide : ¬((pyStrip "I\u0027m feeling very frustrated and need to express my concerns respectfully." == "") = true))]
      decide
  · split
    · refine ⟨_, rfl, ?_, ?_⟩ <;> dsimp only
      · decide
      · rw [if_neg (by decide : ¬((pyStrip "I\u0027d like to express my feelings about this situation." == "") = true))]
        decide
    · refine ⟨_, rfl, ?_, ?_⟩ <;> dsimp only
      · decide

/-- When the language hint is one of the four supported tags, the
no-credential path returns exactly that hint as the result language. -/
theorem validate_fallback_language (text tone lang : String)
    (hne : lang ≠ "auto") (hfix : pyLowerStr (pyStrip lang) = lang)
    (hmem : (lang == "en" || lang == "fr" || lang == "ar" || lang == "darija") = true) :
    ∃ r, validate_and_fix_response (fallback_mediation text tone lang) text tone lang = .ok r ∧
      r.language = lang := by
  have hdet : detect_language text lang = lang := detect_language_hint text lang hne
  unfold fallback_mediation
  dsimp only
  split
  · refine ⟨_, rfl, ?_⟩
    dsimp only
    rw [hdet, hfix, if_pos hmem]
  · split
    · refine ⟨_, rfl, ?_⟩
      dsimp only
      rw [hdet, hfix, if_pos hmem]
    · refine ⟨_, rfl, ?_⟩
      dsimp only
      rw [hdet, hfix, if_pos hmem]

/-- Field shapes compatible with the string methods applied by the
normalizer. -/
theorem strField_cases (o : Option PyVal) (h : isStrField o = true) :
    o = none ∨ ∃ s, o = some (PyVal.vstr s) := by
  rcases o with _ | v
  · exact Or.inl rfl
  · rcases v with s | n | b | _
    · exact Or.inr ⟨s, rfl⟩
    all_goals simp [isStrField] at h

/-! ### Claim theorems -/

/-- C1: the claim states the returned rewrite never contains a blocklisted
item.  Evaluation of the code at the failing input: with no API key
configured, `mediate` takes the fallback path, which never runs the Lexical
Guard, and for the input "fuck" it returns the original blocklisted text
itself as the rewrite. -/
theorem c1_no_key_guard_skipped :
    (mediate_message false ⟨"fuck", Tone.calm, LangHint.auto⟩ []).rewrite = "fuck" ∧
    contains_profanity ((mediate_message false ⟨"fuck", Tone.calm, LangHint.auto⟩ []).rewrite) = true := by
  exact ⟨by decide, by decide⟩

/-- C2 counterexample: with the credential absent and the benign input
"hello", `mediate` returns `risk_level = "safe"` (not `"harmful"` as the
claim states) and the rewrite is the original text (not a generic
template). -/
theorem c2_counterexample_no_key_not_harmful :
    (mediate_message false ⟨"hello", Tone.calm, LangHint.auto⟩ []).risk_level = "safe" ∧
    (mediate_message false ⟨"hello", Tone.calm, LangHint.auto⟩ []).risk_level ≠ "harmful" ∧
    (mediate_message false ⟨"hello", Tone.calm, LangHint.auto⟩ []).rewrite = "hello" := by
  exact ⟨by decide, by decide, by decide⟩

/-- C2 (amended): if the credential is absent, `mediate` attempts no network
call (the result is independent of the network stream) and returns the
normalized heuristic fallback: `dangerous` when a dangerous pattern matches
the input, else `harmful` when a harmful pattern matches, else `safe`; the
rewrite is the fixed English sentence of the matching branch in the
dangerous/harmful cases, and in the safe case the stripped original text when
that is non-empty, else the generic `(tone, lang_hint)` template; `why` and
`rewrite` are always non-empty. -/
theorem c2_amended_no_key_behavior (text : String) (tone : Tone) (hint : LangHint)
    (nets : List GeminiNet) :
    mediate_message false ⟨text, tone, hint⟩ nets = mediate_message false ⟨text, tone, hint⟩ [] ∧
    (mediate_message false ⟨text, tone, hint⟩ nets).risk_level =
      (if patternHit dangerous_patterns (pyLowerStr text).toList then "dangerous"
       else if patternHit harmful_patterns (pyLowerStr text).toList then "harmful"
       else "safe") ∧
    (mediate_message false ⟨text, tone, hint⟩ nets).rewrite =
      (if patternHit dangerous_patterns (pyLowerStr text).toList then
        "I\u0027m feeling very frustrated and need to express my concerns respectfully."
       else if patternHit harmful_patterns (pyLowerStr text).toList then
        "I\u0027d like to express my feelings about this situation."
       else if pyStrip text == "" then get_generic_rewrite tone.toStr hint.toStr
       else pyStrip text) ∧
    (mediate_message false ⟨text, tone, hint⟩ nets).why ≠ "" ∧
    (mediate_message false ⟨text, tone, hint⟩ nets).rewrite ≠ "" := by
  obtain ⟨r, hr, hrisk, hrew⟩ := validate_fallback_ok text tone.toStr hint.toStr
  have hwf := validate_and_fix_response_wellFormed _ _ _ _ _ hr
  rw [wellFormedB_iff] at hwf
  refine ⟨rfl, ?_, ?_, ?_, ?_⟩ <;> unfold mediate_message <;> rw [call_gemini_mediation_no_key, hr]
  · exact hrisk
  · exact hrew
  · exact hwf.2.1
  · exact hwf.2.2.1

/-- C4 counterexample: a present but wrong-typed field (here `why = None`)
makes `validate_and_fix_response` raise (`None.strip()` is an
`AttributeError`), refuting the claim that it never raises on wrong-typed
values. -/
theorem c4_counterexample_wrong_type_raises :
    validate_and_fix_response ⟨none, some PyVal.vnone, none, none⟩ "hi" "calm" "en" =
      .error "AttributeError" := rfl

/-- C4 (amended): `validate_and_fix_response` never raises provided every
present `why`/`rewrite`/`language` value is a string (`risk_level` may hold
any value, including wrong-typed ones), and the result is then fully valid:
enum risk level, non-empty `why` and `rewrite`, supported language tag. -/
theorem c4_amended_normalize_total_on_str_fields (raw : RawCandidate) (t tone lang : String)
    (h1 : isStrField raw.why = true) (h2 : isStrField raw.rewrite = true)
    (h3 : isStrField raw.language = true) :
    ∃ r, validate_and_fix_response raw t tone lang = .ok r ∧ wellFormedB r = true := by
  obtain ⟨rk, wy, rw0, lg⟩ := raw
  dsimp only at h1 h2 h3
  rcases strField_cases wy h1 with hw | ⟨s1, hw⟩ <;>
    rcases strField_cases rw0 h2 with hr | ⟨s2, hr⟩ <;>
      rcases strField_cases lg h3 with hl | ⟨s3, hl⟩ <;>
        subst hw hr hl <;>
          first
            | exact ⟨_, rfl, validate_and_fix_response_wellFormed ⟨rk, none, none, none⟩ t tone lang _ rfl⟩
            | exact ⟨_, rfl, validate_and_fix_response_wellFormed ⟨rk, none, none, some (.vstr s3)⟩ t tone lang _ rfl⟩
            | exact ⟨_, rfl, validate_and_fix_response_wellFormed ⟨rk, none, some (.vstr s2), none⟩ t tone lang _ rfl⟩
            | exact ⟨_, rfl, validate_and_fix_response_wellFormed ⟨rk, none, some (.vstr s2), some (.vstr s3)⟩ t tone lang _ rfl⟩
            | exact ⟨_, rfl, validate_and_fix_response_wellFormed ⟨rk, some (.vstr s1), none, none⟩ t tone lang _ rfl⟩
            | exact ⟨_, rfl, validate_and_fix_response_wellFormed ⟨rk, some (.vstr s1), none, some (.vstr s3)⟩ t tone lang _ rfl⟩
            | exact ⟨_, rfl, validate_and_fix_response_wellFormed ⟨rk, some (.vstr s1), some (.vstr s2), none⟩ t tone lang _ rfl⟩
            | exact ⟨_, rfl, validate_and_fix_response_wellFormed ⟨rk, some (.vstr s1), some (.vstr s2), some (.vstr s3)⟩ t tone lang _ rfl⟩

/-- Witness for the amended C4 theorem at a concrete malformed candidate
(numeric risk level, empty why, absent rewrite, out-of-enum language). -/
theorem c4_amended_witness :
    isStrField (some (PyVal.vstr "")) = true ∧ isStrField (none : Option PyVal) = true ∧
    isStrField (some (PyVal.vstr "Zz")) = true ∧
    ∃ r, validate_and_fix_response
        ⟨some (PyVal.vint 7), some (PyVal.vstr ""), none, some (PyVal.vstr "Zz")⟩
        "hey" "boss" "xx" = .ok r ∧ wellFormedB r = true :=
  ⟨by decide, by decide, by decide,
    c4_amended_normalize_total_on_str_fields _ "hey" "boss" "xx" (by decide) (by decide) (by decide)⟩

/-- C5 counterexample: three consecutive HTTP 429 responses.  The claim says
the client retries up to exactly 3 attempts (with 2s/4s/6s backoff) before
degrading; in the code `_call_gemini_once` performs a single POST and returns
`None` on any non-200 status, so only one element of the response stream is
consumed and two remain. -/
theorem c5_counterexample_no_retry_on_429 :
    callGeminiOnce
        [GeminiNet.response 429 none, GeminiNet.response 429 none, GeminiNet.response 429 none] =
      (none, [GeminiNet.response 429 none, GeminiNet.response 429 none]) ∧
    [GeminiNet.response 429 none, GeminiNet.response 429 none] ≠ ([] : List GeminiNet) := by
  exact ⟨rfl, by decide⟩

/-- C5 (amended): on any non-success status - including 429 - the client
makes exactly one attempt, applies no backoff, and degrades to a null
candidate without raising; there is no retry logic. -/
theorem c5_amended_single_attempt (status : Nat) (parsed : Option RawCandidate)
    (rest : List GeminiNet) (h : status ≠ 200) :
    callGeminiOnce (GeminiNet.response status parsed :: rest) = (none, rest) := by
  simp [callGeminiOnce, h]

/-- Witness for the amended C5 theorem at status 429. -/
theorem c5_amended_witness :
    (429 ≠ 200) ∧ callGeminiOnce [GeminiNet.response 429 none] = (none, []) :=
  ⟨by decide, c5_amended_single_attempt 429 none [] (by decide)⟩

/-- C7: the claim states French accented input with no Arabic script yields
`"fr"`.  Evaluation of the code at the failing input: the accent-set literal
in the file is cp1252 mojibake and contains no real accented letter, so
"café" is detected as `"en"`.  The Arabic-script, Darija-marker and
plain-ASCII cases behave as claimed. -/
theorem c7_detect_language_eval :
    detect_language "café" "auto" = "en" ∧
    detect_language "café" "auto" ≠ "fr" ∧
    detect_language "hello" "auto" = "en" ∧
    detect_language "سلام" "auto" = "ar" ∧
    detect_language "سلام 3" "auto" = "darija" := by
  exact ⟨by decide, by decide, by decide, by decide, by decide⟩

/-- C8: for every schema-valid request, every credential state and every
network behaviour, the `/mediate` endpoint returns a well-formed result: any
internal exception is caught at the boundary and converted into the fixed
harmful-classified response, and the returned `MediationResult` always has
enum-valid `risk_level` and `language` and non-empty `why` and `rewrite`. -/
theorem c8_mediate_always_wellFormed (apiKeyPresent : Bool) (req : MediationRequest)
    (nets : List GeminiNet) : wellFormedB (mediate_message apiKeyPresent req nets) = true := by
  unfold mediate_message
  split
  · next r hcall => exact call_gemini_mediation_ok_wellFormed _ _ _ _ _ _ hcall
  · decide

/-- C9 counterexample: an unknown tone with the known language `"fr"` falls
back to the French calm entry, not to the `(calm, en)` entry as the claim
states (the two axes default independently). -/
theorem c9_counterexample_unknown_tone_keeps_language :
    get_generic_rewrite "bogus" "fr" = rw_fr_calm ∧
    get_generic_rewrite "calm" "en" = rw_en_calm ∧
    rw_fr_calm ≠ rw_en_calm := by
  exact ⟨by decide, by decide, by decide⟩

/-- C10: `contains_profanity` is extensionally pure substring containment
against the blocklist - the word-boundary tokenization pass never changes the
outcome - so benign words containing a blocked item, such as "class"
(contains "ass") and "concerns" (contains "con"), are flagged. -/
theorem c10_guard_is_substring_containment :
    (∀ text : String, contains_profanity text = containsBlockedSubstringSpec text) ∧
    contains_profanity "class" = true ∧ contains_profanity "concerns" = true :=
  ⟨contains_profanity_eq_spec, by decide, by decide⟩

/-- C3 counterexample: the normalized classifier candidate is `safe` and its
rewrite "hi" passes the guard, yet because the original input "fuck" contains
a blocklisted item, the final risk level is overridden to `"harmful"` (lines
251-255 of the source), refuting the claim that the guard never decides
`risk_level`. -/
theorem c3_counterexample_keyword_override :
    (validate_and_fix_response
        ⟨some (PyVal.vstr "safe"), some (PyVal.vstr "Polite message."),
          some (PyVal.vstr "hi"), some (PyVal.vstr "en")⟩ "fuck" "calm" "auto" =
      .ok ⟨"safe", "Polite message.", "hi", "en"⟩) ∧
    contains_profanity "hi" = false ∧
    contains_profanity "fuck" = true ∧
    (mediate_message true ⟨"fuck", Tone.calm, LangHint.auto⟩
        [GeminiNet.response 200 (some ⟨some (PyVal.vstr "safe"), some (PyVal.vstr "Polite message."),
          some (PyVal.vstr "hi"), some (PyVal.vstr "en")⟩)]).risk_level = "harmful" ∧
    (mediate_message true ⟨"fuck", Tone.calm, LangHint.auto⟩
        [GeminiNet.response 200 (some ⟨some (PyVal.vstr "safe"), some (PyVal.vstr "Polite message."),
          some (PyVal.vstr "hi"), some (PyVal.vstr "en")⟩)]).risk_level ≠ "safe" := by
  exact ⟨rfl, by decide, by decide, by decide, by decide⟩

/-- C3 (amended): when the normalized classifier candidate is `safe`, its
rewrite passes the guard, and additionally the original input contains no
blocklisted item, the final result is exactly that candidate (risk level
`safe`); if the original input does contain a blocklisted item, the code
overrides a `safe` classification to `harmful`. -/
theorem c3_amended_safe_needs_clean_input (req : MediationRequest) (nets : List GeminiNet)
    (cand : RawCandidate) (res : MedDict)
    (honce : (callGeminiOnce nets).1 = some cand)
    (hval : validate_and_fix_response cand req.text req.tone.toStr req.lang_hint.toStr = .ok res)
    (_hsafe : res.risk_level = "safe")
    (hclean : contains_profanity res.rewrite = false)
    (horig : contains_profanity req.text = false) :
    mediate_message true req nets = res := by
  unfold mediate_message call_gemini_mediation
  simp only [honce, hval, hclean, horig]
  simp

/-- Witness for the amended C3 theorem: a clean candidate on clean input is
returned unchanged with risk level `safe`. -/
theorem c3_amended_witness :
    ((callGeminiOnce [GeminiNet.response 200 (some ⟨some (PyVal.vstr "safe"),
        some (PyVal.vstr "ok."), some (PyVal.vstr "thanks"), some (PyVal.vstr "en")⟩)]).1 =
      some ⟨some (PyVal.vstr "safe"), some (PyVal.vstr "ok."),
        some (PyVal.vstr "thanks"), some (PyVal.vstr "en")⟩) ∧
    mediate_message true ⟨"hello", Tone.calm, LangHint.auto⟩
        [GeminiNet.response 200 (some ⟨some (PyVal.vstr "safe"), some (PyVal.vstr "ok."),
          some (PyVal.vstr "thanks"), some (PyVal.vstr "en")⟩)] =
      ⟨"safe", "ok.", "thanks", "en"⟩ :=
  ⟨rfl, c3_amended_safe_needs_clean_input _ _ _ _ rfl rfl rfl (by decide) (by decide)⟩

/-- C6 counterexample: with `lang_hint = "fr"`, a classifier candidate
reporting `language = "en"` makes `mediate` return `"en"`, not the hint,
refuting the claim that the returned language always equals a non-auto
hint. -/
theorem c6_counterexample_classifier_language_wins :
    (mediate_message true ⟨"hello", Tone.calm, LangHint.fr⟩
        [GeminiNet.response 200 (some ⟨some (PyVal.vstr "safe"), some (PyVal.vstr "ok."),
          some (PyVal.vstr "hi"), some (PyVal.vstr "en")⟩)]).language = "en" ∧
    (mediate_message true ⟨"hello", Tone.calm, LangHint.fr⟩
        [GeminiNet.response 200 (some ⟨some (PyVal.vstr "safe"), some (PyVal.vstr "ok."),
          some (PyVal.vstr "hi"), some (PyVal.vstr "en")⟩)]).language ≠ "fr" := by
  exact ⟨by decide, by decide⟩

/-- C6 (amended): for every request whose `lang_hint` is not `auto`, the
no-credential path returns exactly `lang_hint` as the result language (on the
credentialed path the classifier-reported language takes precedence, as the
counterexample shows). -/
theorem c6_amended_hint_wins_without_credential (req : MediationRequest) (nets : List GeminiNet)
    (h : req.lang_hint ≠ LangHint.auto) :
    (mediate_message false req nets).language = req.lang_hint.toStr := by
  obtain ⟨text, tone, hint⟩ := req
  simp only at h
  have hne : hint.toStr ≠ "auto" := by
    cases hint
    · exact absurd rfl h
    all_goals decide
  have hfix : pyLowerStr (pyStrip hint.toStr) = hint.toStr := by
    cases hint <;> decide
  have hmem : (hint.toStr == "en" || hint.toStr == "fr" || hint.toStr == "ar" ||
      hint.toStr == "darija") = true := by
    cases hint
    · exact absurd rfl h
    all_goals decide
  obtain ⟨r, hr, hl⟩ := validate_fallback_language text tone.toStr hint.toStr hne hfix hmem
  unfold mediate_message
  rw [call_gemini_mediation_no_key, hr]
  exact hl

/-- Witness for the amended C6 theorem at hint `fr`. -/
theorem c6_amended_witness :
    (LangHint.fr ≠ LangHint.auto) ∧
    (mediate_message false ⟨"hello there", Tone.calm, LangHint.fr⟩ []).language =
      LangHint.fr.toStr :=
  ⟨by decide, c6_amended_hint_wins_without_credential ⟨"hello there", Tone.calm, LangHint.fr⟩ []
    (by decide)⟩

set_option maxHeartbeats 1600000 in
/-- C9 (amended): every one of the 12 known tone-language combinations yields
a non-empty, guard-clean template; an unknown tone falls back to `calm` and
an unknown language falls back to `en` independently (so an unknown tone with
a known language stays in that language, and only unknown-both reaches the
`(calm, en)` entry). -/
theorem c9_amended_templates_clean_and_axiswise_fallback (tone lang : String) :
    ((tone ∈ ["calm", "friendly", "professional"] ∧ lang ∈ langTags) →
      get_generic_rewrite tone lang ≠ "" ∧
        contains_profanity (get_generic_rewrite tone lang) = false) ∧
    (tone ∉ ["calm", "friendly", "professional"] →
      get_generic_rewrite tone lang = get_generic_rewrite "calm" lang) ∧
    (lang ∉ langTags → get_generic_rewrite tone lang = get_generic_rewrite tone "en") := by
  refine ⟨?_, ?_, ?_⟩
  · rintro ⟨ht, hl⟩
    simp only [langTags, List.mem_cons, List.not_mem_nil, or_false] at ht hl
    rcases ht with ht | ht | ht <;> rcases hl with hl | hl | hl | hl <;>
      rw [ht, hl] <;> exact ⟨by decide, by decide⟩
  · intro ht
    simp only [List.mem_cons, List.not_mem_nil, or_false] at ht
    push_neg at ht
    have hb : (tone == "calm" || tone == "friendly" || tone == "professional") = false := by
      simp [beq_eq_false_iff_ne, ht.1, ht.2.1, ht.2.2]
    unfold get_generic_rewrite
    dsimp only
    rw [hb]
    simp
  · intro hl
    simp only [langTags, List.mem_cons, List.not_mem_nil, or_false] at hl
    push_neg at hl
    have hb : (lang == "en" || lang == "fr" || lang == "ar" || lang == "darija") = false := by
      simp [beq_eq_false_iff_ne, hl.1, hl.2.1, hl.2.2.1, hl.2.2.2]
    unfold get_generic_rewrite
    dsimp only
    rw [hb]
    simp

set_option maxHeartbeats 800000 in
/-- Witness for the amended C9 theorem: the `(calm, en)` combination is
non-empty and guard-clean, and unknown tone and language each fall back
axiswise. -/
theorem c9_amended_witness :
    ("calm" ∈ ["calm", "friendly", "professional"] ∧ "en" ∈ langTags) ∧
    (get_generic_rewrite "calm" "en" ≠ "" ∧
      contains_profanity (get_generic_rewrite "calm" "en") = false) ∧
    ("boss" ∉ ["calm", "friendly", "professional"]) ∧
    get_generic_rewrite "boss" "fr" = get_generic_rewrite "calm" "fr" ∧
    ("xx" ∉ langTags) ∧
    get_generic_rewrite "boss" "xx" = get_generic_rewrite "boss" "en" :=
  ⟨⟨by decide, by decide⟩,
    (c9_amended_templates_clean_and_axiswise_fallback "calm" "en").1 ⟨by decide, by decide⟩,
    by decide,
    (c9_amended_templates_clean_and_axiswise_fallback "boss" "fr").2.1 (by decide),
    by decide,
    (c9_amended_templates_clean_and_axiswise_fallback "boss" "xx").2.2 (by decide)⟩
